import Mathlib

/-!
Shallow embedding of the analytical core of the RAG backend
(rag_processor.py, alzheimers_processor.py, longitudinal_analysis.py)
together with theorems settling the frozen claims about it.

Conventions of the embedding:
* Python float arithmetic is modelled over exact rationals: every numeric
  constant in the source is a decimal literal, used here at its exact value.
* Python dictionaries of string-valued fields are modelled as association
  lists (List (String × String)); dict.get(k, default) is dict_get.
* Statements that can raise are modelled in Except String, the error string
  being the exception's message; an enclosing try/except becomes a match.
* datetime.fromisoformat values are modelled as rational day numbers; the
  .days field of a timedelta is the floor of the day difference.  A missing
  or malformed 'timestamp' entry is modelled as a none timestamp (accessing
  it raises, which the embedding surfaces as Except.error).
-/

/-! ### Python string and number primitives -/

/-- Characters `str.split()` treats as separators (the ASCII whitespace set). -/
def pyIsSpace (c : Char) : Bool :=
  c == ' ' || c == '\t' || c == '\n' || c == '\r' || c == '\x0b' || c == '\x0c'

/-- Model of `s.split()[0]`: the first whitespace-separated token of `s`,
or `none` when `s` has no tokens (in Python, indexing the empty list raises
IndexError). -/
def firstToken (s : String) : Option String :=
  let rest := s.toList.dropWhile pyIsSpace
  let tok := rest.takeWhile (fun c => !pyIsSpace c)
  if tok = [] then none else some (String.mk tok)

/-- Numeric value of a digit string (most significant digit first). -/
def digitsToNat (cs : List Char) : ℕ :=
  cs.foldl (fun acc c => 10 * acc + (c.toNat - 48)) 0

def allDigits (cs : List Char) : Bool := cs.all Char.isDigit

/-- Optional leading sign: returns (isNegative, rest). -/
def splitSign : List Char → Bool × List Char
  | '+' :: r => (false, r)
  | '-' :: r => (true, r)
  | r => (false, r)

def underscoresOkAux : Char → List Char → Bool
  | _, [] => true
  | prev, c :: rest =>
    if c = '_' then
      (prev.isDigit && (match rest with | n :: _ => n.isDigit | [] => false))
        && underscoresOkAux c rest
    else underscoresOkAux c rest

/-- CPython's rule for underscores in numeric strings: each underscore must
be directly between two digits. -/
def underscoresOk : List Char → Bool
  | [] => true
  | c :: rest => if c = '_' then false else underscoresOkAux c rest

/-- Split at the first exponent marker e or E. -/
def splitExp : List Char → List Char × Option (List Char)
  | [] => ([], none)
  | c :: rest =>
    if c = 'e' || c = 'E' then ([], some rest)
    else
      let (m, e) := splitExp rest
      (c :: m, e)

/-- Split at the first decimal point. -/
def splitDot : List Char → List Char × Option (List Char)
  | [] => ([], none)
  | c :: rest =>
    if c = '.' then ([], some rest)
    else
      let (m, e) := splitDot rest
      (c :: m, e)

def stripPySpaces (cs : List Char) : List Char :=
  ((cs.dropWhile pyIsSpace).reverse.dropWhile pyIsSpace).reverse

/-- Digit-level reading of a finite decimal/scientific float literal:
returns (signed mantissa digits, power-of-ten exponent), so that the value
is mantissa · 10 ^ exponent.  Working over ℤ × ℤ keeps the parser fully
computable by the kernel; `pyFloat` converts to ℚ at the boundary. -/
def pyFloatRaw (s : String) : Option (ℤ × ℤ) :=
  let cs := stripPySpaces s.toList
  let (neg, body) := splitSign cs
  if body = [] then none
  else if !underscoresOk body then none
  else
    let body := body.filter (fun c => c ≠ '_')
    let (mant, exp?) := splitExp body
    let (ip, fp?) := splitDot mant
    let fp := fp?.getD []
    if !(allDigits ip && allDigits fp) then none
    else if ip = [] && fp = [] then none
    else
      let m : ℤ := (digitsToNat (ip ++ fp) : ℤ)
      let m : ℤ := if neg then -m else m
      match exp? with
      | none => some (m, -(fp.length : ℤ))
      | some ecs =>
        let (eneg, edig) := splitSign ecs
        if edig = [] || !allDigits edig then none
        else
          let ev : ℤ := if eneg then -(digitsToNat edig : ℤ) else (digitsToNat edig : ℤ)
          some (m, ev - (fp.length : ℤ))

/-- Model of Python `float(s)` restricted to finite decimal/scientific forms.
The special tokens inf/infinity/nan have no rational value and are outside
the model (recognised separately by `pySpecialFloatToken` so that theorems
quantifying over failing tokens can exclude them). -/
def pyFloat (s : String) : Option ℚ :=
  (pyFloatRaw s).map (fun p => (p.1 : ℚ) * (10 : ℚ) ^ p.2)

/-- Tokens Python's float() accepts but the rational model excludes. -/
def pySpecialFloatToken (s : String) : Bool :=
  let cs := stripPySpaces s.toList
  let (_, body) := splitSign cs
  let low := String.mk (body.map Char.toLower)
  low == "inf" || low == "infinity" || low == "nan"

/-- Model of Python `int(s)` (base 10). -/
def pyInt (s : String) : Option ℤ :=
  let cs := stripPySpaces s.toList
  let (neg, body) := splitSign cs
  if body = [] then none
  else if !underscoresOk body then none
  else
    let body := body.filter (fun c => c ≠ '_')
    if allDigits body && body ≠ [] then
      some (if neg then -(digitsToNat body : ℤ) else (digitsToNat body : ℤ))
    else none

/-- Python substring test `pat in hay`. -/
def strContains (hay pat : String) : Bool :=
  decide (pat.toList <:+: hay.toList)

/-- Python `s.lower()` (ASCII fragment). -/
def pyLower (s : String) : String := String.mk (s.toList.map Char.toLower)

/-! ### rag_processor.create_chunks (lines 53-80)

The loop is embedded with an explicit fuel bound: `none` means the loop was
still running when the fuel ran out.  A result of `some chunks` for some fuel
would witness termination. -/

/-- Python slice-index resolution for `s[a:b]` (step 1): negative indices
count from the end, then both are clamped into [0, len]. -/
def pySliceIdx (len : ℕ) (i : ℤ) : ℕ :=
  if i < 0 then ((len : ℤ) + i).toNat else min i.toNat len

/-- Python slice `l[a:b]`. -/
def pySlice {α : Type} (l : List α) (a b : ℤ) : List α :=
  (l.take (pySliceIdx l.length b)).drop (pySliceIdx l.length a)

def chunk_size : ℤ := 500
def chunk_overlap : ℤ := 50

/-- One-to-one embedding of the while loop of create_chunks:
while start < len: end = start + 500 (clamped to len); append text[start:end];
start = end - 50; break if start >= len. -/
def create_chunks_loop (text : List Char) : ℕ → ℤ → List (List Char) → Option (List (List Char))
  | 0, _, _ => none
  | fuel + 1, start, acc =>
    if start < (text.length : ℤ) then
      let e0 := start + chunk_size
      let e := if e0 > (text.length : ℤ) then (text.length : ℤ) else e0
      let chunk := pySlice text start e
      let acc' := acc ++ [chunk]
      let start' := e - chunk_overlap
      if start' ≥ (text.length : ℤ) then some acc' else create_chunks_loop text fuel start' acc'
    else some acc

def create_chunks (text : List Char) (fuel : ℕ) : Option (List (List Char)) :=
  create_chunks_loop text fuel 0 []

theorem create_chunks_loop_none (text : List Char) :
    ∀ (fuel : ℕ) (start : ℤ) (acc : List (List Char)),
      start < (text.length : ℤ) →
      create_chunks_loop text fuel start acc = none := by
  intro fuel
  induction fuel with
  | zero => intro start acc _; rfl
  | succ n ih =>
    intro start acc h
    have hstep :
        ∀ e : ℤ, e ≤ (text.length : ℤ) → ¬ (e - chunk_overlap ≥ (text.length : ℤ)) := by
      intro e he
      simp only [chunk_overlap]
      omega
    simp only [create_chunks_loop, if_pos h]
    by_cases hclamp : start + chunk_size > (text.length : ℤ)
    · rw [if_pos hclamp]
      rw [if_neg (hstep _ le_rfl)]
      exact ih _ _ (by simp only [chunk_overlap]; omega)
    · rw [if_neg hclamp]
      push_neg at hclamp
      rw [if_neg (hstep _ hclamp)]
      exact ih _ _ (by simp only [chunk_overlap] at *; omega)

/-- C1: refuted termination.  For every non-empty input string the
create_chunks loop never exits, whatever iteration bound it is given: the
updated start is end − 50 ≤ len − 50 < len, so the while condition stays true
and the break guard start ≥ len can never hold.  The code therefore cannot
return the claimed list of 450-character-stride windows for any non-empty
input. -/
theorem C1_create_chunks_never_terminates (text : List Char) (fuel : ℕ)
    (h : 0 < text.length) :
    create_chunks text fuel = none :=
  create_chunks_loop_none text fuel 0 [] (by exact_mod_cast h)

theorem C1_create_chunks_never_terminates_witness :
    0 < ("a".toList).length ∧ create_chunks "a".toList 100 = none :=
  ⟨by decide, C1_create_chunks_never_terminates "a".toList 100 (by decide)⟩

/-- C2: chunk coverage.  For the empty string create_chunks does return
(an empty chunk list, covering length 0), but for the one-character string
"a" it never returns at all — the loop runs forever — so no chunk list
exists whose non-overlapping segments could reproduce the input length. -/
theorem C2_chunk_coverage_fails :
    create_chunks ([] : List Char) 1 = some [] ∧
      ∀ fuel : ℕ, create_chunks "a".toList fuel = none :=
  ⟨rfl, fun fuel => create_chunks_loop_none "a".toList fuel 0 [] (by decide)⟩

/-! ### alzheimers_processor risk scoring (lines 75-245)

The patient-snapshot dictionaries are association lists of string fields;
dict.get(key, default) is dict_get.  The error messages are the exception
texts CPython produces at the corresponding raise sites. -/

abbrev PyDict := List (String × String)

def dict_get (d : PyDict) (k v0 : String) : String := (d.lookup k).getD v0

def float_err_msg (tok : String) : String :=
  "could not convert string to float: '" ++ tok ++ "'"

def index_err_msg : String := "list index out of range"

def int_err_msg (s : String) : String :=
  "invalid literal for int() with base 10: '" ++ s ++ "'"

/-- Model of `float(raw.split()[0])`: IndexError when there is no token,
ValueError when the first token is not numeric. -/
def py_float_of_first_token (raw : String) : Except String ℚ :=
  match firstToken raw with
  | none => .error index_err_msg
  | some tok =>
    match pyFloat tok with
    | none => .error (float_err_msg tok)
    | some q => .ok q

/-- Model of `int(s)` raising ValueError on a non-numeric literal. -/
def py_int (s : String) : Except String ℤ :=
  match pyInt s with
  | none => .error (int_err_msg s)
  | some n => .ok n

/-- Branch cascade of _assess_cognitive_risk (lines 108-133) on the already
parsed MMSE and verbal-fluency values: each `risk_score += c` inside an
if/elif chain contributes its constant, and the sum is clamped by
`min(risk_score, 1.0)`. -/
def _assess_cognitive_risk_vals (mmse verbal : ℚ) (memory_issues : String) : ℚ :=
  let risk : ℚ := 0
  let risk := risk + (if mmse < 24 then 0.4 else if mmse < 27 then 0.2 else 0)
  let risk := risk + (if verbal < 12 then 0.3 else if verbal < 15 then 0.15 else 0)
  let risk := risk +
    (if memory_issues = "severe" then 0.3
     else if memory_issues = "moderate" then 0.2
     else if memory_issues = "mild" then 0.1 else 0)
  min risk 1

/-- _assess_cognitive_risk (lines 106-133): parses
`cognitive.get('mmse_score', '30')` and `cognitive.get('verbal_fluency', '0')`
by first whitespace token (uncaught ValueError/IndexError propagate), then
accumulates the branch constants. -/
def _assess_cognitive_risk (cognitive symptoms : PyDict) : Except String ℚ := do
  let mmse ← py_float_of_first_token (dict_get cognitive "mmse_score" "30")
  let verbal ← py_float_of_first_token (dict_get cognitive "verbal_fluency" "0")
  pure (_assess_cognitive_risk_vals mmse verbal (dict_get symptoms "memory_issues" "none"))

/-- The biomarkers argument: a dict holding a genotype string and a nested
blood-markers dict. -/
structure BiomarkersDict where
  apoe_genotype : Option String
  blood_markers : Option PyDict
deriving DecidableEq

/-- _assess_genetic_risk (lines 135-155). -/
def _assess_genetic_risk (biomarkers : BiomarkersDict) (medical : PyDict) : ℚ :=
  let apoe := pyLower (biomarkers.apoe_genotype.getD "")
  let risk : ℚ := 0
  let risk := risk +
    (if strContains apoe "e4/e4" then 0.5 else if strContains apoe "e4" then 0.3 else 0)
  let risk := risk +
    (if pyLower (dict_get medical "family_history_alzheimers" "") = "yes" then 0.3 else 0)
  let blood_markers := biomarkers.blood_markers.getD []
  let risk := risk +
    (if pyLower (dict_get blood_markers "beta_amyloid" "") = "elevated" then 0.2 else 0)
  min risk 1

/-- _assess_lifestyle_risk (lines 157-180): int() parses can raise; the
result is clamped to [0,1] on both sides. -/
def _assess_lifestyle_risk (demographics medical : PyDict) : Except String ℚ := do
  let age ← py_int (dict_get demographics "age" "0")
  let risk : ℚ := 0
  let risk := risk + (if age ≥ 65 then 0.3 else if age ≥ 55 then 0.15 else 0)
  let education ← py_int (dict_get demographics "education_years" "0")
  let risk := risk + (if education ≥ 16 then -0.1 else if education ≥ 12 then -0.05 else 0)
  let cardio := pyLower (dict_get medical "cardiovascular_conditions" "")
  let risk := risk +
    (if strContains cardio "hypertension" || strContains cardio "heart disease" then 0.2 else 0)
  pure (min (max risk 0) 1)

/-- _identify_warning_signs (lines 182-208); re-parses the MMSE score, so the
same uncaught exceptions can propagate from here. -/
def _identify_warning_signs (cognitive symptoms : PyDict) : Except String (List String) := do
  let mmse ← py_float_of_first_token (dict_get cognitive "mmse_score" "30")
  let warnings :=
    if mmse < 24 then ["Significant cognitive impairment detected in MMSE score"]
    else if mmse < 27 then ["Mild cognitive impairment detected in MMSE score"]
    else []
  let memory := pyLower (dict_get symptoms "memory_issues" "none")
  let warnings := warnings ++
    (if memory = "moderate" ∨ memory = "severe" then ["Significant memory issues reported"]
     else if memory = "mild" then ["Early signs of memory issues detected"] else [])
  let language := pyLower (dict_get symptoms "language_difficulties" "none")
  let warnings := warnings ++
    (if language ≠ "none" then ["Language difficulties present"] else [])
  let daily := pyLower (dict_get symptoms "daily_activity_changes" "none")
  let warnings := warnings ++
    (if daily ≠ "none" then ["Changes in daily activities observed"] else [])
  pure warnings

/-- _generate_recommendations (lines 210-245), keyed by the three scores it
reads from the risk_scores dict. -/
def _generate_recommendations (overall_risk cognitive_risk lifestyle_risk : ℚ) : List String :=
  let recs : List String := []
  let recs := recs ++
    (if overall_risk > 0.7 then
      ["Immediate consultation with a neurologist recommended",
       "Consider comprehensive neuropsychological testing",
       "Regular cognitive monitoring advised"]
     else if overall_risk > 0.4 then
      ["Schedule follow-up cognitive assessments",
       "Consider lifestyle modifications",
       "Monitor cognitive changes closely"]
     else [])
  let recs := recs ++
    (if cognitive_risk > 0.6 then
      ["Engage in cognitive stimulation activities",
       "Consider cognitive rehabilitation programs",
       "Regular memory exercises recommended"]
     else [])
  let recs := recs ++
    (if lifestyle_risk > 0.5 then
      ["Increase physical activity levels",
       "Maintain social engagement",
       "Consider Mediterranean diet adoption",
       "Regular cardiovascular health check-ups"]
     else [])
  recs

structure RiskScores where
  overall_risk : ℚ
  cognitive_risk : ℚ
  genetic_risk : ℚ
  lifestyle_risk : ℚ
  warning_signs : List String
  recommendations : List String
deriving DecidableEq

/-- _calculate_risk_scores (lines 75-104): the sub-scores are computed in the
order of the risk_scores dict literal, then overall_risk and the
recommendations are filled in. -/
def _calculate_risk_scores (demographics cognitive medical symptoms : PyDict)
    (biomarkers : BiomarkersDict) : Except String RiskScores := do
  let cognitive_risk ← _assess_cognitive_risk cognitive symptoms
  let genetic_risk := _assess_genetic_risk biomarkers medical
  let lifestyle_risk ← _assess_lifestyle_risk demographics medical
  let warning_signs ← _identify_warning_signs cognitive symptoms
  let overall_risk := cognitive_risk * 0.4 + genetic_risk * 0.3 + lifestyle_risk * 0.3
  let recommendations := _generate_recommendations overall_risk cognitive_risk lifestyle_risk
  pure { overall_risk := overall_risk, cognitive_risk := cognitive_risk,
         genetic_risk := genetic_risk, lifestyle_risk := lifestyle_risk,
         warning_signs := warning_signs, recommendations := recommendations }

/-- The scoring path of process_patient_data (lines 23-63): any exception
raised during scoring is re-raised as
Exception("Error processing Alzheimer's data: " + str(e)). -/
def process_patient_data_risk (demographics cognitive medical symptoms : PyDict)
    (biomarkers : BiomarkersDict) : Except String RiskScores :=
  match _calculate_risk_scores demographics cognitive medical symptoms biomarkers with
  | .ok r => .ok r
  | .error e => .error ("Error processing Alzheimer's data: " ++ e)

/-! ### Claim C3: the end-to-end scoring scenario -/

def c3_demographics : PyDict := [("age", "75"), ("education_years", "12")]
def c3_cognitive : PyDict := [("mmse_score", "23"), ("verbal_fluency", "10 words")]
def c3_medical : PyDict :=
  [("family_history_alzheimers", "yes"), ("cardiovascular_conditions", "hypertension")]
def c3_symptoms : PyDict := [("memory_issues", "moderate")]
def c3_biomarkers : BiomarkersDict := ⟨some "e4/e4", some [("beta_amyloid", "elevated")]⟩

theorem c3_cognitive_eval :
    _assess_cognitive_risk c3_cognitive c3_symptoms = .ok (9/10) := by
  simp only [_assess_cognitive_risk, py_float_of_first_token,
    (show dict_get c3_cognitive "mmse_score" "30" = "23" by decide),
    (show dict_get c3_cognitive "verbal_fluency" "0" = "10 words" by decide),
    (show dict_get c3_symptoms "memory_issues" "none" = "moderate" by decide),
    (show firstToken "23" = some "23" by decide),
    (show firstToken "10 words" = some "10" by decide),
    pyFloat,
    (show pyFloatRaw "23" = some (23, 0) by decide),
    (show pyFloatRaw "10" = some (10, 0) by decide),
    Option.map_some, _assess_cognitive_risk_vals]
  simp only [Except.bind, bind, pure, Except.pure]
  simp
  norm_num

theorem c3_genetic_eval : _assess_genetic_risk c3_biomarkers c3_medical = 1 := by
  simp only [_assess_genetic_risk, c3_biomarkers, Option.getD_some,
    (show pyLower "e4/e4" = "e4/e4" by decide),
    (show strContains "e4/e4" "e4/e4" = true by decide),
    (show pyLower (dict_get c3_medical "family_history_alzheimers" "") = "yes" by decide),
    (show pyLower (dict_get [("beta_amyloid", "elevated")] "beta_amyloid" "") = "elevated"
      by decide)]
  norm_num

theorem c3_lifestyle_eval :
    _assess_lifestyle_risk c3_demographics c3_medical = .ok (9/20) := by
  simp only [_assess_lifestyle_risk, py_int,
    (show dict_get c3_demographics "age" "0" = "75" by decide),
    (show dict_get c3_demographics "education_years" "0" = "12" by decide),
    (show pyInt "75" = some 75 by decide),
    (show pyInt "12" = some 12 by decide),
    (show pyLower (dict_get c3_medical "cardiovascular_conditions" "") = "hypertension"
      by decide),
    (show strContains "hypertension" "hypertension" = true by decide)]
  simp only [Except.bind, bind, pure, Except.pure]
  norm_num

theorem c3_warnings_eval :
    _identify_warning_signs c3_cognitive c3_symptoms =
      .ok ["Significant cognitive impairment detected in MMSE score",
           "Significant memory issues reported"] := by
  simp only [_identify_warning_signs, py_float_of_first_token,
    (show dict_get c3_cognitive "mmse_score" "30" = "23" by decide),
    (show firstToken "23" = some "23" by decide),
    pyFloat, (show pyFloatRaw "23" = some (23, 0) by decide),
    Option.map_some,
    (show pyLower (dict_get c3_symptoms "memory_issues" "none") = "moderate" by decide),
    (show pyLower (dict_get c3_symptoms "language_difficulties" "none") = "none" by decide),
    (show pyLower (dict_get c3_symptoms "daily_activity_changes" "none") = "none" by decide)]
  simp only [Except.bind, bind, pure, Except.pure]
  simp
  norm_num

/-- C3: on the snapshot age=75, mmse="23", verbal_fluency="10 words",
memory_issues="moderate", apoe="e4/e4", family history "yes", elevated
beta-amyloid, 12 education years and hypertension, the scorer returns
cognitive_risk 0.9, genetic_risk 1.0, lifestyle_risk 0.45 and overall_risk
0.795, and the recommendation list contains the urgent (> 0.7)
neurologist-referral tier. -/
theorem C3_end_to_end_scenario :
    _calculate_risk_scores c3_demographics c3_cognitive c3_medical c3_symptoms c3_biomarkers =
      Except.ok
        { overall_risk := 0.795, cognitive_risk := 0.9, genetic_risk := 1,
          lifestyle_risk := 0.45,
          warning_signs := ["Significant cognitive impairment detected in MMSE score",
                            "Significant memory issues reported"],
          recommendations := ["Immediate consultation with a neurologist recommended",
                              "Consider comprehensive neuropsychological testing",
                              "Regular cognitive monitoring advised",
                              "Engage in cognitive stimulation activities",
                              "Consider cognitive rehabilitation programs",
                              "Regular memory exercises recommended"] } ∧
      ∀ r, _calculate_risk_scores c3_demographics c3_cognitive c3_medical c3_symptoms
            c3_biomarkers = Except.ok r →
        r.overall_risk > 0.7 ∧
        "Immediate consultation with a neurologist recommended" ∈ r.recommendations := by
  constructor
  · simp only [_calculate_risk_scores, c3_cognitive_eval, c3_genetic_eval, c3_lifestyle_eval,
      c3_warnings_eval, Except.bind, bind, pure, Except.pure, _generate_recommendations]
    norm_num
  · intro r hr
    simp only [_calculate_risk_scores, c3_cognitive_eval, c3_genetic_eval, c3_lifestyle_eval,
      c3_warnings_eval, Except.bind, bind, pure, Except.pure, _generate_recommendations] at hr
    norm_num at hr
    subst hr
    norm_num

/-! ### Claim C4: sub-score and overall-risk bounds -/

theorem _assess_cognitive_risk_vals_bounds (m v : ℚ) (s : String) :
    0 ≤ _assess_cognitive_risk_vals m v s ∧ _assess_cognitive_risk_vals m v s ≤ 1 := by
  unfold _assess_cognitive_risk_vals
  refine ⟨le_min ?_ (by norm_num), min_le_right _ _⟩
  split_ifs <;> norm_num

theorem _assess_cognitive_risk_bounds (c s : PyDict) (q : ℚ)
    (h : _assess_cognitive_risk c s = .ok q) : 0 ≤ q ∧ q ≤ 1 := by
  simp only [_assess_cognitive_risk, Except.bind, bind, pure, Except.pure] at h
  rcases hm : py_float_of_first_token (dict_get c "mmse_score" "30") with e | mm <;>
    rw [hm] at h
  · exact absurd h (by simp)
  rcases hv : py_float_of_first_token (dict_get c "verbal_fluency" "0") with e | vv <;>
    rw [hv] at h
  · exact absurd h (by simp)
  simp only [Except.ok.injEq] at h
  rw [← h]
  exact _assess_cognitive_risk_vals_bounds mm vv _

theorem _assess_genetic_risk_bounds (b : BiomarkersDict) (m : PyDict) :
    0 ≤ _assess_genetic_risk b m ∧ _assess_genetic_risk b m ≤ 1 := by
  unfold _assess_genetic_risk
  refine ⟨le_min ?_ (by norm_num), min_le_right _ _⟩
  split_ifs <;> norm_num

theorem _assess_lifestyle_risk_bounds (d m : PyDict) (q : ℚ)
    (h : _assess_lifestyle_risk d m = .ok q) : 0 ≤ q ∧ q ≤ 1 := by
  simp only [_assess_lifestyle_risk, Except.bind, bind, pure, Except.pure] at h
  rcases ha : py_int (dict_get d "age" "0") with e | age <;> rw [ha] at h
  · exact absurd h (by simp)
  rcases he : py_int (dict_get d "education_years" "0") with e | edu <;> rw [he] at h
  · exact absurd h (by simp)
  simp only [Except.ok.injEq] at h
  rw [← h]
  exact ⟨le_min (le_max_right _ _) (by norm_num), min_le_right _ _⟩

/-- C4: whenever the scorer succeeds, the three sub-scores are each clamped
into [0,1] before combination, and overall_risk equals
0.4·cognitive + 0.3·genetic + 0.3·lifestyle, which therefore also lies in
[0,1]. -/
theorem C4_risk_scores_bounded (demographics cognitive medical symptoms : PyDict)
    (biomarkers : BiomarkersDict) (r : RiskScores)
    (h : _calculate_risk_scores demographics cognitive medical symptoms biomarkers =
      .ok r) :
    (0 ≤ r.cognitive_risk ∧ r.cognitive_risk ≤ 1) ∧
    (0 ≤ r.genetic_risk ∧ r.genetic_risk ≤ 1) ∧
    (0 ≤ r.lifestyle_risk ∧ r.lifestyle_risk ≤ 1) ∧
    r.overall_risk =
      0.4 * r.cognitive_risk + 0.3 * r.genetic_risk + 0.3 * r.lifestyle_risk ∧
    0 ≤ r.overall_risk ∧ r.overall_risk ≤ 1 := by
  simp only [_calculate_risk_scores, Except.bind, bind, pure, Except.pure] at h
  rcases hc : _assess_cognitive_risk cognitive symptoms with e | qc <;> rw [hc] at h
  · exact absurd h (by simp)
  rcases hl : _assess_lifestyle_risk demographics medical with e | ql <;> rw [hl] at h
  · exact absurd h (by simp)
  rcases hw : _identify_warning_signs cognitive symptoms with e | ws <;> rw [hw] at h
  · exact absurd h (by simp)
  simp only [Except.ok.injEq] at h
  obtain rfl := h.symm
  have hcb := _assess_cognitive_risk_bounds cognitive symptoms qc hc
  have hgb := _assess_genetic_risk_bounds biomarkers medical
  have hlb := _assess_lifestyle_risk_bounds demographics medical ql hl
  refine ⟨hcb, hgb, hlb, by ring, ?_, ?_⟩ <;>
    · simp only []
      nlinarith [hcb.1, hcb.2, hgb.1, hgb.2, hlb.1, hlb.2]

theorem C4_risk_scores_bounded_witness :
    ((0:ℚ) ≤ 0.3 ∧ (0.3:ℚ) ≤ 1) ∧ ((0:ℚ) ≤ 0 ∧ (0:ℚ) ≤ 1) ∧
    ((0:ℚ) ≤ 0 ∧ (0:ℚ) ≤ 1) ∧
    (0.12 : ℚ) = 0.4 * 0.3 + 0.3 * 0 + 0.3 * 0 ∧ (0:ℚ) ≤ 0.12 ∧ (0.12:ℚ) ≤ 1 :=
  C4_risk_scores_bounded [] [] [] [] ⟨none, none⟩
    ⟨0.12, 0.3, 0, 0, [], []⟩ (by
      simp only [_calculate_risk_scores, _assess_cognitive_risk, _assess_genetic_risk,
        _assess_lifestyle_risk, _identify_warning_signs, _generate_recommendations,
        py_float_of_first_token, py_int, pyFloat,
        (show dict_get [] "mmse_score" "30" = "30" by decide),
        (show dict_get [] "verbal_fluency" "0" = "0" by decide),
        (show dict_get [] "memory_issues" "none" = "none" by decide),
        (show dict_get [] "age" "0" = "0" by decide),
        (show dict_get [] "education_years" "0" = "0" by decide),
        (show dict_get [] "family_history_alzheimers" "" = "" by decide),
        (show dict_get [] "cardiovascular_conditions" "" = "" by decide),
        (show dict_get [] "language_difficulties" "none" = "none" by decide),
        (show dict_get [] "daily_activity_changes" "none" = "none" by decide),
        (show firstToken "30" = some "30" by decide),
        (show firstToken "0" = some "0" by decide),
        (show pyFloatRaw "30" = some (30, 0) by decide),
        (show pyFloatRaw "0" = some (0, 0) by decide),
        (show pyInt "0" = some 0 by decide),
        (show pyLower "" = "" by decide),
        (show pyLower "none" = "none" by decide),
        (show pyLower (dict_get [] "beta_amyloid" "") = "" by decide),
        (show strContains "" "e4/e4" = false by decide),
        (show strContains "" "e4" = false by decide),
        (show strContains "" "hypertension" = false by decide),
        (show strContains "" "heart disease" = false by decide),
        Option.map_some, Option.getD_none,
        _assess_cognitive_risk_vals, Except.bind, bind, pure, Except.pure]
      simp
      norm_num)

/-! ### Claim C9: cognitive risk is antitone in the MMSE score -/

/-- C9: lowering the MMSE score while holding the verbal-fluency value and
the memory-issues severity fixed never lowers the cognitive risk: the MMSE
branch contributes 0.4 below 24, 0.2 below 27 and 0 above, and the later
additions and the final clamp preserve the ordering. -/
theorem C9_cognitive_risk_antitone_in_mmse (m₁ m₂ verbal : ℚ) (memory : String)
    (h : m₁ ≤ m₂) :
    _assess_cognitive_risk_vals m₂ verbal memory ≤
      _assess_cognitive_risk_vals m₁ verbal memory := by
  unfold _assess_cognitive_risk_vals
  refine min_le_min (add_le_add (add_le_add (add_le_add le_rfl ?_) le_rfl) le_rfl) le_rfl
  split_ifs <;> linarith

/-- Helper: a present mmse_score entry whose first token fails to parse makes
_assess_cognitive_risk raise the ValueError for that token. -/
theorem assess_cognitive_mmse_error (s tok : String) (rest symptoms : PyDict)
    (hft : firstToken s = some tok) (hpf : pyFloat tok = none) :
    _assess_cognitive_risk (("mmse_score", s) :: rest) symptoms =
      .error (float_err_msg tok) := by
  simp only [_assess_cognitive_risk, dict_get, List.lookup, beq_self_eq_true,
    Option.getD_some, py_float_of_first_token, hft, hpf, Except.bind, bind]

/-! ### Claim C5: error on a non-numeric token -/

def c5_err_msg : String :=
  "Error processing Alzheimer's data: could not convert string to float: 'abc'"

set_option maxRecDepth 4000 in
/-- C5 counterexample: with mmse_score = "abc" the scorer raises
ValueError("could not convert string to float: 'abc'"), re-raised by
process_patient_data as a generic Exception; the resulting message names the
offending token but nowhere contains the field name "mmse_score", refuting
the claim that the error names the offending field. -/
theorem C5_counterexample :
    process_patient_data_risk [] [("mmse_score", "abc")] [] [] ⟨none, none⟩ =
      .error c5_err_msg ∧
    strContains c5_err_msg "mmse_score" = false := by
  constructor
  · rw [process_patient_data_risk]
    rw [show _calculate_risk_scores [] [("mmse_score", "abc")] [] [] ⟨none, none⟩ =
        .error (float_err_msg "abc") by
      simp only [_calculate_risk_scores,
        assess_cognitive_mmse_error "abc" "abc" [] [] (by decide)
          (by simp only [pyFloat, (show pyFloatRaw "abc" = none by decide), Option.map_none']),
        Except.bind, bind]]
    simp [c5_err_msg, float_err_msg]
  · decide

theorem C9_cognitive_risk_antitone_in_mmse_witness :
    _assess_cognitive_risk_vals 25 0 "none" ≤ _assess_cognitive_risk_vals 20 0 "none" :=
  C9_cognitive_risk_antitone_in_mmse 20 25 0 "none" (by norm_num)

/-- C5 as amended: when a numeric cognitive field carries a non-numeric
(non-special) first token, scoring fails with the ValueError message, which
names the offending token, not the field; and a numeric token with a
trailing unit such as "10 words" is parsed by its first token and does not
fail (second conjunct: mmse "23" with verbal "10 words" scores 0.7). -/
theorem C5_amended_error_names_token :
    (∀ (s tok : String) (rest symptoms : PyDict),
      firstToken s = some tok → pyFloat tok = none → pySpecialFloatToken tok = false →
      _assess_cognitive_risk (("mmse_score", s) :: rest) symptoms =
        .error (float_err_msg tok) ∧
      strContains (float_err_msg tok) tok = true) ∧
    _assess_cognitive_risk [("mmse_score", "23"), ("verbal_fluency", "10 words")] [] =
      .ok 0.7 := by
  refine ⟨fun s tok rest symptoms hft hpf _ => ⟨assess_cognitive_mmse_error s tok rest symptoms hft hpf, ?_⟩, ?_⟩
  · simp only [strContains, decide_eq_true_eq, float_err_msg]
    refine ⟨"could not convert string to float: '".toList, "'".toList, ?_⟩
    simp [String.toList]
  · simp only [_assess_cognitive_risk, py_float_of_first_token,
      (show dict_get [("mmse_score", "23"), ("verbal_fluency", "10 words")]
        "mmse_score" "30" = "23" by decide),
      (show dict_get [("mmse_score", "23"), ("verbal_fluency", "10 words")]
        "verbal_fluency" "0" = "10 words" by decide),
      (show dict_get ([] : PyDict) "memory_issues" "none" = "none" by decide),
      (show firstToken "23" = some "23" by decide),
      (show firstToken "10 words" = some "10" by decide),
      pyFloat, (show pyFloatRaw "23" = some (23, 0) by decide),
      (show pyFloatRaw "10" = some (10, 0) by decide),
      Option.map_some, _assess_cognitive_risk_vals, Except.bind, bind, pure, Except.pure]
    simp
    norm_num

theorem C5_amended_error_names_token_witness :
    (_assess_cognitive_risk [("mmse_score", "abc")] [] =
        .error (float_err_msg "abc") ∧
      strContains (float_err_msg "abc") "abc" = true) ∧
    _assess_cognitive_risk [("mmse_score", "23"), ("verbal_fluency", "10 words")] [] =
      .ok 0.7 :=
  ⟨C5_amended_error_names_token.1 "abc" "abc" [] [] (by decide) (by
      simp only [pyFloat, (show pyFloatRaw "abc" = none by decide), Option.map_none'])
    (by decide),
   C5_amended_error_names_token.2⟩

/-! ### longitudinal_analysis (lines 11-277)

Records carry the parsed pieces the analyzer reads: the ISO timestamp
(as a rational day number, none when missing or malformed), the nested
cognitive_tests and symptoms dicts (none when the path
patient_data.cognitive_tests / patient_data.symptoms is missing), and the
risk_assessment dict with its four sub-score entries. -/

structure RiskEntry where
  overall_risk : Option ℚ
  cognitive_risk : Option ℚ
  genetic_risk : Option ℚ
  lifestyle_risk : Option ℚ

structure PRecord where
  timestamp : Option ℚ
  cognitive_tests : Option PyDict
  symptoms : Option PyDict
  risk_assessment : Option RiskEntry

def cognitive_metrics : List String :=
  ["mmse_score", "verbal_fluency", "clock_drawing_test"]

/-- `(t - timestamps[0]).days / 365.25`: timedelta.days is the floor of the
day difference. -/
def days_to_years (d : ℚ) : ℚ := ((Int.floor d : ℤ) : ℚ) / 365.25

/-- The per-metric collection loop of _analyze_cognitive_decline
(lines 72-78): a missing path or a non-numeric value is skipped
(KeyError/ValueError caught), but a value with no whitespace token raises
an uncaught IndexError from `.split()[0]`. -/
def collect_metric_points (metric : String) :
    List (ℚ × PRecord) → Except String (List (ℚ × ℚ))
  | [] => .ok []
  | (t, r) :: rest =>
    match r.cognitive_tests with
    | none => collect_metric_points metric rest
    | some tests =>
      match tests.lookup metric with
      | none => collect_metric_points metric rest
      | some raw =>
        match firstToken raw with
        | none => .error index_err_msg
        | some tok =>
          match pyFloat tok with
          | none => collect_metric_points metric rest
          | some q => do
            let tail ← collect_metric_points metric rest
            pure ((t, q) :: tail)

/-- Years-from-first-assessment of a (time, score) series. -/
def times_to_years : List (ℚ × ℚ) → List ℚ
  | [] => []
  | pts@((t0, _) :: _) => pts.map (fun p => days_to_years (p.1 - t0))

def scores_of (pts : List (ℚ × ℚ)) : List ℚ := pts.map Prod.snd

/-- Centered sum of squares of the x-values. -/
def var_sum (xs : List ℚ) : ℚ :=
  (xs.map (fun x => (x - xs.sum / (xs.length : ℚ)) ^ 2)).sum

/-- Centered sum of products of paired x- and y-values. -/
def cov_sum (xs ys : List ℚ) : ℚ :=
  ((xs.zip ys).map
    (fun p => (p.1 - xs.sum / (xs.length : ℚ)) * (p.2 - ys.sum / (ys.length : ℚ)))).sum

/-- Modelled from the spec (and sklearn's documented behaviour):
`LinearRegression().fit` — an external dependency, not part of src/ — fits
an ordinary-least-squares line; its slope is covariance/variance when the
x-values are not all equal, and 0 (the minimum-norm least-squares solution
computed by lstsq) when they are. -/
def ols_slope (xs ys : List ℚ) : ℚ :=
  if var_sum xs = 0 then 0 else cov_sum xs ys / var_sum xs

/-- Modelled from the spec: the fitted intercept of sklearn's
LinearRegression, ybar − slope·xbar. -/
def ols_intercept (xs ys : List ℚ) : ℚ :=
  ys.sum / (ys.length : ℚ) - ols_slope xs ys * (xs.sum / (xs.length : ℚ))

/-- Rate computation of _analyze_cognitive_decline (lines 80-93) for a
collected series of at least 2 points: with exactly 2 points the two-point
slope `(scores[-1]-scores[0])/years[-1]` (ZeroDivisionError when the elapsed
years are 0), otherwise the OLS slope. -/
def metric_rate (pts : List (ℚ × ℚ)) : Except String ℚ :=
  let years := times_to_years pts
  let scores := scores_of pts
  if pts.length = 2 then
    let y := years.getLastD 0
    if y = 0 then .error "float division by zero"
    else .ok ((scores.getLastD 0 - scores.headD 0) / y)
  else .ok (ols_slope years scores)

/-- _classify_decline_rate (lines 205-219) with the progression_thresholds
table of lines 19-30 inlined per metric. -/
def _classify_decline_rate (metric : String) (rate : ℚ) : String :=
  if metric = "mmse_score" then
    if rate ≤ -3 then "rapid" else if rate ≤ -2 then "moderate"
    else if rate ≤ -1 then "slow" else "stable"
  else if metric = "verbal_fluency" then
    if rate ≤ -5 then "rapid" else if rate ≤ -3 then "moderate"
    else if rate ≤ -1 then "slow" else "stable"
  else "unknown"

structure RateInfo where
  rate : ℚ
  severity : String

def _analyze_cognitive_decline_metrics (hist : List (ℚ × PRecord)) :
    List String → Except String (List (String × RateInfo))
  | [] => .ok []
  | m :: ms => do
    let pts ← collect_metric_points m hist
    if pts.length ≥ 2 then do
      let rate ← metric_rate pts
      let rest ← _analyze_cognitive_decline_metrics hist ms
      pure ((m, ⟨rate, _classify_decline_rate m rate⟩) :: rest)
    else
      _analyze_cognitive_decline_metrics hist ms

/-- _analyze_cognitive_decline (lines 64-100). -/
def _analyze_cognitive_decline (hist : List (ℚ × PRecord)) :
    Except String (List (String × RateInfo)) :=
  _analyze_cognitive_decline_metrics hist cognitive_metrics

def symptom_types : List String :=
  ["memory_issues", "language_difficulties", "daily_activity_changes"]

/-- _analyze_symptom_progression (lines 102-122); each progression entry
carries the record's timestamp (here in parsed form) and the severity
string. -/
def _analyze_symptom_progression (hist : List (ℚ × PRecord)) :
    List (String × List (ℚ × String)) :=
  symptom_types.filterMap (fun s =>
    let progression := hist.filterMap (fun tr =>
      (tr.2.symptoms.bind (fun d => d.lookup s)).map (fun sev => (tr.1, sev)))
    if progression.isEmpty then none else some (s, progression))

structure TrendInfo where
  initial : ℚ
  current : ℚ
  annual_change : ℚ
  trend : String

inductive TrajResult where
  | no_risk_data : TrajResult
  | trends : List (String × TrendInfo) → TrajResult

/-- The four sub-score reads of lines 132-137; a missing key raises KeyError,
caught by the loop's except which skips the record. -/
def risk_entry_scores (e : RiskEntry) : Option (ℚ × ℚ × ℚ × ℚ) := do
  let o ← e.overall_risk
  let c ← e.cognitive_risk
  let g ← e.genetic_risk
  let l ← e.lifestyle_risk
  pure (o, c, g, l)

def mk_trend (time_diff : ℚ) (name : String) (first last : ℚ) : String × TrendInfo :=
  let change := last - first
  let annual_change := if time_diff > 0 then change / time_diff else 0
  (name, ⟨first, last, annual_change,
    if annual_change > 0.05 then "increasing"
    else if annual_change < -0.05 then "decreasing" else "stable"⟩)

/-- _analyze_risk_trajectory (lines 124-163): collects the records carrying
a complete risk assessment, and reports per-risk-type trends between the
first and last of them, guarding the division by elapsed years. -/
def _analyze_risk_trajectory (hist : List (ℚ × PRecord)) : TrajResult :=
  let collected := hist.filterMap (fun tr =>
    (tr.2.risk_assessment.bind risk_entry_scores).map (fun s => (tr.1, s)))
  match collected with
  | [] => .no_risk_data
  | first :: rest =>
    let last := rest.getLastD first
    let time_diff := days_to_years (last.1 - first.1)
    .trends
      [mk_trend time_diff "overall_risk" first.2.1 last.2.1,
       mk_trend time_diff "cognitive_risk" first.2.2.1 last.2.2.1,
       mk_trend time_diff "genetic_risk" first.2.2.2.1 last.2.2.2.1,
       mk_trend time_diff "lifestyle_risk" first.2.2.2.2 last.2.2.2.2]

/-! ### Prediction and top-level progression analysis -/

inductive PredResult where
  | insufficient_data : PredResult
  | success (current_score predicted_score_1year confidence : ℚ) : PredResult
  | error (message : String) : PredResult

/-- Modelled from the spec (sklearn's r2_score, an external dependency):
R² = 1 − ssRes/ssTot; for a constant y it degrades to 1.0 on a perfect fit
and 0.0 otherwise. -/
def r2_of_sums (ssTot ssRes : ℚ) : ℚ :=
  if ssTot = 0 then (if ssRes = 0 then 1 else 0) else 1 - ssRes / ssTot

def r2_score (yTrue yPred : List ℚ) : ℚ :=
  let ybar := yTrue.sum / (yTrue.length : ℚ)
  let ssTot := (yTrue.map (fun y => (y - ybar) ^ 2)).sum
  let ssRes := ((yTrue.zip yPred).map (fun p => (p.1 - p.2) ^ 2)).sum
  r2_of_sums ssTot ssRes

/-- Python's round-half-to-even of q·100, divided back: round(q, 2). -/
def round2 (q : ℚ) : ℚ :=
  let s := q * 100
  let f := Int.floor s
  let r : ℤ :=
    if s - f < 1/2 then f
    else if s - f > 1/2 then f + 1
    else if f % 2 = 0 then f else f + 1
  (r : ℚ) / 100

/-- _calculate_prediction_confidence (lines 221-240): the fit's R² scaled
down for small samples and rounded to two decimals. -/
def _calculate_prediction_confidence (xs ys : List ℚ) : ℚ :=
  let preds := xs.map (fun x => ols_intercept xs ys + ols_slope xs ys * x)
  let r2 := r2_score ys preds
  let n := xs.length
  let confidence := if n < 3 then r2 * 0.6 else if n < 5 then r2 * 0.8 else r2
  round2 confidence

/-- _predict_progression (lines 165-203): its own try/except turns any
exception (e.g. the IndexError from a token-less mmse value) into an
error-status dict. -/
def _predict_progression (hist : List (ℚ × PRecord)) : PredResult :=
  match collect_metric_points "mmse_score" hist with
  | .error e => .error e
  | .ok pts =>
    if pts.length < 2 then .insufficient_data
    else
      let years := times_to_years pts
      let scores := scores_of pts
      let slope := ols_slope years scores
      let intercept := ols_intercept years scores
      let predicted_score := intercept + slope * (years.getLastD 0 + 1)
      .success (scores.getLastD 0) predicted_score
        (_calculate_prediction_confidence years scores)

structure Analysis where
  cognitive_decline_rate : List (String × RateInfo)
  symptom_progression : List (String × List (ℚ × String))
  risk_trajectory : TrajResult
  prediction : PredResult

/-- _generate_recommendations of longitudinal_analysis.py (lines 242-276).
When the trajectory is the no_risk_data status dict, the loop
`for risk_type, data in trajectory.items()` reaches `data['trend']` on the
string "no_risk_data" and raises TypeError. -/
def _generate_recommendations_long (analysis : Analysis) :
    Except String (List String) := do
  let decline_recs := analysis.cognitive_decline_rate.filterMap (fun md =>
    if md.2.severity = "rapid" then
      some ("Urgent: Rapid decline in " ++ md.1 ++ ". Immediate medical consultation required.")
    else if md.2.severity = "moderate" then
      some ("Important: Moderate decline in " ++ md.1 ++ ". Schedule follow-up assessment.")
    else none)
  let traj_recs ← match analysis.risk_trajectory with
    | .no_risk_data => Except.error "string indices must be integers"
    | .trends ts => Except.ok (ts.filterMap (fun td =>
        if td.2.trend = "increasing" then
          some ("Monitor: Increasing trend in " ++ td.1 ++ ". Review risk management strategy.")
        else none))
  let pred_recs :=
    match analysis.prediction with
    | .success current predicted _ =>
      if predicted < current then
        ["Alert: Cognitive decline predicted. Consider preventive interventions."]
      else []
    | _ => []
  pure (decline_recs ++ traj_recs ++ pred_recs)

structure ProgResult where
  status : String
  message : Option String
  analysis : Option Analysis
  recommendations : Option (List String)

def insufficient_result : ProgResult :=
  ⟨"insufficient_data", some "Need at least 2 assessments for progression analysis",
   none, none⟩

def error_result (e : String) : ProgResult := ⟨"error", some e, none, none⟩

/-- The body of the try block of analyze_progression after the length
check: the analysis dict entries are computed in source order, so the first
exception wins, then the recommendations are generated. -/
def analyze_progression_body (sorted : List (ℚ × PRecord)) :
    Except String (Analysis × List String) := do
  let decline ← _analyze_cognitive_decline sorted
  let symptoms := _analyze_symptom_progression sorted
  let trajectory := _analyze_risk_trajectory sorted
  let prediction := _predict_progression sorted
  let analysis : Analysis := ⟨decline, symptoms, trajectory, prediction⟩
  let recommendations ← _generate_recommendations_long analysis
  pure (analysis, recommendations)

/-- analyze_progression (lines 32-62): sorted() first materialises the
timestamp key of every record in list order (raising on a missing or
malformed one), then sorts stably by it; fewer than 2 records yield the
insufficient_data dict; any exception in the body is caught and returned as
the error-status dict. -/
def analyze_progression (patient_history : List PRecord) : ProgResult :=
  match patient_history.mapM (fun r =>
    match r.timestamp with
    | some t => Except.ok (t, r)
    | none => Except.error "Invalid isoformat string") with
  | .error e => error_result e
  | .ok keyed =>
    let sorted := List.insertionSort (fun a b => a.1 ≤ b.1) keyed
    if sorted.length < 2 then insufficient_result
    else
      match analyze_progression_body sorted with
      | .ok (analysis, recommendations) =>
        ⟨"success", none, some analysis, some recommendations⟩
      | .error e => error_result e

/-! ### Claim C7: decline-rate computation paths -/

def ssr (xs ys : List ℚ) (slope intercept : ℚ) : ℚ :=
  ((xs.zip ys).map (fun p => (p.2 - (intercept + slope * p.1)) ^ 2)).sum

def Sx (l : List (ℚ × ℚ)) : ℚ := (l.map (fun p => p.1)).sum
def Sy (l : List (ℚ × ℚ)) : ℚ := (l.map (fun p => p.2)).sum
def Sxx (l : List (ℚ × ℚ)) : ℚ := (l.map (fun p => p.1 ^ 2)).sum
def Sxy (l : List (ℚ × ℚ)) : ℚ := (l.map (fun p => p.1 * p.2)).sum
def Syy (l : List (ℚ × ℚ)) : ℚ := (l.map (fun p => p.2 ^ 2)).sum

theorem ssrP_expand (l : List (ℚ × ℚ)) (b a : ℚ) :
    (l.map (fun p => (p.2 - (a + b * p.1)) ^ 2)).sum =
      Syy l - 2 * a * Sy l - 2 * b * Sxy l + 2 * a * b * Sx l
        + (l.length : ℚ) * a ^ 2 + b ^ 2 * Sxx l := by
  induction l with
  | nil => simp [Sx, Sy, Sxx, Sxy, Syy]
  | cons p l ih =>
    simp only [List.map_cons, List.sum_cons, ih, Sx, Sy, Sxx, Sxy, Syy,
      List.length_cons]
    push_cast
    ring

theorem sum_sq_dev (xs : List ℚ) (c : ℚ) :
    (xs.map (fun x => (x - c) ^ 2)).sum =
      (xs.map (fun x => x ^ 2)).sum - 2 * c * xs.sum + (xs.length : ℚ) * c ^ 2 := by
  induction xs with
  | nil => simp
  | cons x xs ih =>
    simp only [List.map_cons, List.sum_cons, ih, List.length_cons]
    push_cast
    ring

theorem sum_prod_dev (l : List (ℚ × ℚ)) (cx cy : ℚ) :
    (l.map (fun p => (p.1 - cx) * (p.2 - cy))).sum =
      Sxy l - cx * Sy l - cy * Sx l + (l.length : ℚ) * (cx * cy) := by
  induction l with
  | nil => simp [Sx, Sy, Sxy]
  | cons p l ih =>
    simp only [List.map_cons, List.sum_cons, ih, Sx, Sy, Sxy, List.length_cons]
    push_cast
    ring

theorem ols_quadratic_min (n A B C D E vS cS b a : ℚ)
    (hn : 0 < n) (hv : 0 < vS)
    (hvar : vS = C - A ^ 2 / n) (hcov : cS = D - A * B / n) :
    E - 2 * (B / n - cS / vS * (A / n)) * B - 2 * (cS / vS) * D
      + 2 * (B / n - cS / vS * (A / n)) * (cS / vS) * A
      + n * (B / n - cS / vS * (A / n)) ^ 2 + (cS / vS) ^ 2 * C
    ≤ E - 2 * a * B - 2 * b * D + 2 * a * b * A + n * a ^ 2 + b ^ 2 * C := by
  have hn' : n ≠ 0 := ne_of_gt hn
  have hv' : vS ≠ 0 := ne_of_gt hv
  have hC : C = vS + A ^ 2 / n := by rw [hvar]; ring
  have hD : D = cS + A * B / n := by rw [hcov]; ring
  subst hC hD
  have key : ∀ β α : ℚ,
      E - 2 * α * B - 2 * β * (cS + A * B / n) + 2 * α * β * A + n * α ^ 2
          + β ^ 2 * (vS + A ^ 2 / n)
        = n * (α - B / n + β * A / n) ^ 2 + vS * (β - cS / vS) ^ 2
          + (E - B ^ 2 / n - cS ^ 2 / vS) := by
    intro β α
    field_simp
    ring
  rw [key, key]
  have h0 : (B / n - cS / vS * (A / n)) - B / n + cS / vS * A / n = 0 := by ring
  rw [h0]
  have h1 : cS / vS - cS / vS = 0 := by ring
  rw [h1]
  have h2 : n * (0:ℚ) ^ 2 = 0 := by ring
  have h3 : vS * (0:ℚ) ^ 2 = 0 := by ring
  rw [h2, h3]
  have h4 : (0:ℚ) ≤ n * (a - B / n + b * A / n) ^ 2 := by positivity
  have h5 : (0:ℚ) ≤ vS * (b - cS / vS) ^ 2 := by positivity
  linarith

theorem var_sum_nonneg (xs : List ℚ) : 0 ≤ var_sum xs := by
  apply List.sum_nonneg
  intro x hx
  simp only [List.mem_map] at hx
  obtain ⟨y, -, rfl⟩ := hx
  positivity

theorem ols_min (xs ys : List ℚ) (b a : ℚ) (hlen : xs.length = ys.length)
    (hv : var_sum xs ≠ 0) :
    ssr xs ys (ols_slope xs ys) (ols_intercept xs ys) ≤ ssr xs ys b a := by
  have hx : (xs.zip ys).map Prod.fst = xs := List.map_fst_zip xs ys hlen.le
  have hy : (xs.zip ys).map Prod.snd = ys := List.map_snd_zip xs ys hlen.ge
  have hne : xs ≠ [] := by
    intro h
    exact hv (by simp [var_sum, h])
  have hnpos : 0 < (xs.length : ℚ) := by
    exact_mod_cast List.length_pos.mpr hne
  have hn' : (xs.length : ℚ) ≠ 0 := ne_of_gt hnpos
  have hll : ((xs.zip ys).length : ℚ) = (xs.length : ℚ) := by
    rw [List.length_zip, hlen, min_self]
  have hSx : Sx (xs.zip ys) = xs.sum := by rw [Sx, hx]
  have hSy : Sy (xs.zip ys) = ys.sum := by rw [Sy, hy]
  have hvareq : var_sum xs =
      Sxx (xs.zip ys) - Sx (xs.zip ys) ^ 2 / (xs.length : ℚ) := by
    have hmm : Sxx (xs.zip ys) = (xs.map (fun x => x ^ 2)).sum := by
      rw [Sxx]
      conv_rhs => rw [← hx]
      rw [List.map_map]
      rfl
    rw [var_sum, sum_sq_dev, hmm, hSx]
    field_simp
    ring
  have hyn : (ys.length : ℚ) ≠ 0 := by rw [← hlen]; exact hn'
  have hcoveq : cov_sum xs ys =
      Sxy (xs.zip ys) - Sx (xs.zip ys) * Sy (xs.zip ys) / (xs.length : ℚ) := by
    rw [cov_sum, sum_prod_dev, hSx, hSy, hll, hlen]
    field_simp
    ring
  have hvpos : 0 < var_sum xs := lt_of_le_of_ne (var_sum_nonneg xs) (Ne.symm hv)
  have hslope : ols_slope xs ys = cov_sum xs ys / var_sum xs := by
    rw [ols_slope, if_neg hv]
  have hintercept : ols_intercept xs ys =
      Sy (xs.zip ys) / (xs.length : ℚ)
        - cov_sum xs ys / var_sum xs * (Sx (xs.zip ys) / (xs.length : ℚ)) := by
    rw [ols_intercept, hslope, hSx, hSy, hlen]
  have hssr : ∀ β α : ℚ, ssr xs ys β α =
      Syy (xs.zip ys) - 2 * α * Sy (xs.zip ys) - 2 * β * Sxy (xs.zip ys)
        + 2 * α * β * Sx (xs.zip ys) + (xs.length : ℚ) * α ^ 2
        + β ^ 2 * Sxx (xs.zip ys) := by
    intro β α
    rw [ssr, ssrP_expand, hll]
  rw [hssr, hssr, hslope, hintercept]
  exact ols_quadratic_min (xs.length : ℚ) (Sx (xs.zip ys)) (Sy (xs.zip ys))
    (Sxx (xs.zip ys)) (Sxy (xs.zip ys)) (Syy (xs.zip ys)) (var_sum xs)
    (cov_sum xs ys) b a hnpos hvpos hvareq hcoveq

theorem days_to_years_zero : days_to_years 0 = 0 := by
  simp [days_to_years]

/-- C7: with exactly 2 valid (time, score) points the decline rate is the
two-point slope (score difference over elapsed years); with 3 or more points
it is the slope of the fitted line, which is the ordinary-least-squares
optimum (third conjunct: it minimises the sum of squared residuals among
all lines); and the synthetic MMSE series 28, 25, 22 at years 0, 1, 2 has
slope −3 per year, classified "rapid" by the MMSE thresholds. -/
theorem C7_decline_rate_paths :
    (∀ t0 s0 t1 s1 : ℚ, days_to_years (t1 - t0) ≠ 0 →
      metric_rate [(t0, s0), (t1, s1)] =
        .ok ((s1 - s0) / days_to_years (t1 - t0))) ∧
    (∀ pts : List (ℚ × ℚ), 3 ≤ pts.length →
      metric_rate pts = .ok (ols_slope (times_to_years pts) (scores_of pts))) ∧
    (∀ (xs ys : List ℚ) (b a : ℚ), xs.length = ys.length → var_sum xs ≠ 0 →
      ssr xs ys (ols_slope xs ys) (ols_intercept xs ys) ≤ ssr xs ys b a) ∧
    ols_slope [0, 1, 2] [28, 25, 22] = -3 ∧
    _classify_decline_rate "mmse_score" (-3) = "rapid" := by
  refine ⟨?_, ?_, fun xs ys b a h1 h2 => ols_min xs ys b a h1 h2, ?_, ?_⟩
  · intro t0 s0 t1 s1 h
    simp only [metric_rate, times_to_years, scores_of, List.map_cons, List.map_nil,
      List.length_cons, List.length_nil, List.getLastD, List.headD]
    norm_num [h]
  · intro pts h
    have h2 : pts.length ≠ 2 := by omega
    simp only [metric_rate, if_neg h2]
  · have hv : var_sum [(0:ℚ), 1, 2] = 2 := by
      norm_num [var_sum]
    rw [ols_slope, hv]
    norm_num [cov_sum]
  · norm_num [_classify_decline_rate]

theorem C7_decline_rate_paths_witness :
    metric_rate [((0:ℚ), 28), (366, 25)] = .ok ((25 - 28) / days_to_years (366 - 0)) ∧
    metric_rate [((0:ℚ), 28), (366, 25), (731, 22)] =
      .ok (ols_slope (times_to_years [((0:ℚ), 28), (366, 25), (731, 22)])
        (scores_of [((0:ℚ), 28), (366, 25), (731, 22)])) ∧
    ssr [0, 1, 2] [28, 25, 22] (ols_slope [0, 1, 2] [28, 25, 22])
      (ols_intercept [0, 1, 2] [28, 25, 22]) ≤ ssr [0, 1, 2] [28, 25, 22] 0 30 :=
  ⟨C7_decline_rate_paths.1 0 28 366 25 (by norm_num [days_to_years]),
   C7_decline_rate_paths.2.1 _ (by simp),
   C7_decline_rate_paths.2.2.1 [0, 1, 2] [28, 25, 22] 0 30 (by simp)
     (by norm_num [var_sum])⟩

/-! ### Claim C10: analyze_progression is total with a three-valued status -/

/-- C10: for every input list analyze_progression returns a dict whose
status is one of insufficient_data, success or error: every raise site
inside the try block is modelled in Except and the top-level except
converts any error into the tagged error result. -/
theorem C10_analyze_progression_total (history : List PRecord) :
    (analyze_progression history).status = "insufficient_data" ∨
    (analyze_progression history).status = "success" ∨
    (analyze_progression history).status = "error" := by
  unfold analyze_progression
  split
  · right; right; rfl
  · dsimp only
    split
    · left; rfl
    · split
      · right; left; rfl
      · right; right; rfl

/-! ### Claim C6: identical timestamps -/

/-- Helper: with two same-timestamp records carrying complete risk
assessments, the trajectory guard reports annual_change 0 and trend
"stable" for each of the four risk types. -/
theorem risk_trajectory_two_equal_times (t : ℚ) (r1 r2 : PRecord)
    (e1 e2 : RiskEntry) (o1 c1 g1 l1 o2 c2 g2 l2 : ℚ)
    (h1 : r1.risk_assessment = some e1) (h2 : r2.risk_assessment = some e2)
    (ho1 : e1.overall_risk = some o1) (hc1 : e1.cognitive_risk = some c1)
    (hg1 : e1.genetic_risk = some g1) (hl1 : e1.lifestyle_risk = some l1)
    (ho2 : e2.overall_risk = some o2) (hc2 : e2.cognitive_risk = some c2)
    (hg2 : e2.genetic_risk = some g2) (hl2 : e2.lifestyle_risk = some l2) :
    _analyze_risk_trajectory [(t, r1), (t, r2)] =
      .trends [("overall_risk", ⟨o1, o2, 0, "stable"⟩),
               ("cognitive_risk", ⟨c1, c2, 0, "stable"⟩),
               ("genetic_risk", ⟨g1, g2, 0, "stable"⟩),
               ("lifestyle_risk", ⟨l1, l2, 0, "stable"⟩)] := by
  simp only [_analyze_risk_trajectory, List.filterMap_cons, List.filterMap_nil,
    h1, h2, risk_entry_scores, ho1, hc1, hg1, hl1, ho2, hc2, hg2, hl2,
    Option.some_bind, Option.map_some]
  simp only [List.getLastD, mk_trend, sub_self, days_to_years_zero]
  norm_num [days_to_years_zero]

/-- Helper: two records with the same timestamp and parseable mmse_score
values make the two-point rate divide by zero elapsed years, raising
ZeroDivisionError("float division by zero"). -/
theorem cognitive_decline_two_equal_times_error (t : ℚ) (r1 r2 : PRecord)
    (d1 d2 : PyDict) (s1 s2 tok1 tok2 : String) (q1 q2 : ℚ)
    (hd1 : r1.cognitive_tests = some d1) (hm1 : d1.lookup "mmse_score" = some s1)
    (hf1 : firstToken s1 = some tok1) (hp1 : pyFloat tok1 = some q1)
    (hd2 : r2.cognitive_tests = some d2) (hm2 : d2.lookup "mmse_score" = some s2)
    (hf2 : firstToken s2 = some tok2) (hp2 : pyFloat tok2 = some q2) :
    _analyze_cognitive_decline [(t, r1), (t, r2)] =
      .error "float division by zero" := by
  have hcol : collect_metric_points "mmse_score" [(t, r1), (t, r2)] =
      .ok [(t, q1), (t, q2)] := by
    simp only [collect_metric_points, hd1, hm1, hf1, hp1, hd2, hm2, hf2, hp2,
      Except.bind, bind, pure, Except.pure]
  have hrate : metric_rate [(t, q1), (t, q2)] = .error "float division by zero" := by
    simp only [metric_rate, times_to_years, scores_of, List.map_cons, List.map_nil,
      List.length_cons, List.length_nil, List.getLastD, sub_self, days_to_years_zero]
    norm_num
  simp only [_analyze_cognitive_decline, cognitive_metrics,
    _analyze_cognitive_decline_metrics, hcol, hrate, Except.bind, bind]
  norm_num

/-- Helper: analyze_progression on such a pair catches the
ZeroDivisionError and returns the error-status dict. -/
theorem analyze_progression_two_equal_times_error (t : ℚ) (r1 r2 : PRecord)
    (d1 d2 : PyDict) (s1 s2 tok1 tok2 : String) (q1 q2 : ℚ)
    (ht1 : r1.timestamp = some t) (ht2 : r2.timestamp = some t)
    (hd1 : r1.cognitive_tests = some d1) (hm1 : d1.lookup "mmse_score" = some s1)
    (hf1 : firstToken s1 = some tok1) (hp1 : pyFloat tok1 = some q1)
    (hd2 : r2.cognitive_tests = some d2) (hm2 : d2.lookup "mmse_score" = some s2)
    (hf2 : firstToken s2 = some tok2) (hp2 : pyFloat tok2 = some q2) :
    analyze_progression [r1, r2] = error_result "float division by zero" := by
  have hsort : List.insertionSort (fun a b : ℚ × PRecord => a.1 ≤ b.1)
      [(t, r1), (t, r2)] = [(t, r1), (t, r2)] := by
    simp [List.insertionSort, List.orderedInsert]
  have hbody : analyze_progression_body [(t, r1), (t, r2)] =
      .error "float division by zero" := by
    simp only [analyze_progression_body,
      cognitive_decline_two_equal_times_error t r1 r2 d1 d2 s1 s2 tok1 tok2 q1 q2
        hd1 hm1 hf1 hp1 hd2 hm2 hf2 hp2,
      Except.bind, bind]
  simp only [analyze_progression, List.mapM_cons, List.mapM_nil, ht1, ht2,
    Except.bind, bind, pure, Except.pure, hsort, hbody]
  norm_num

def c6_r1 : PRecord :=
  ⟨some 0, some [("mmse_score", "28")], some [],
   some ⟨some 0.5, some 0.5, some 0.5, some 0.5⟩⟩

def c6_r2 : PRecord :=
  ⟨some 0, some [("mmse_score", "25")], some [],
   some ⟨some 0.6, some 0.6, some 0.6, some 0.6⟩⟩

theorem pyFloat_28 : pyFloat "28" = some 28 := by
  simp only [pyFloat, (show pyFloatRaw "28" = some (28, 0) by decide), Option.map_some]
  norm_num

theorem pyFloat_25 : pyFloat "25" = some 25 := by
  simp only [pyFloat, (show pyFloatRaw "25" = some (25, 0) by decide), Option.map_some]
  norm_num

/-- C6 counterexample: two records with identical timestamps, valid risk
assessments and valid cognitive scores make analyze_progression return the
tagged error result (the cognitive-decline rate divides by zero elapsed
years before the trajectory guard is ever reached), not the claimed stable
trends. -/
theorem C6_counterexample :
    analyze_progression [c6_r1, c6_r2] = error_result "float division by zero" ∧
    (analyze_progression [c6_r1, c6_r2]).status = "error" := by
  have h := analyze_progression_two_equal_times_error 0 c6_r1 c6_r2
    [("mmse_score", "28")] [("mmse_score", "25")] "28" "25" "28" "25" 28 25
    rfl rfl rfl (by decide) (by decide) pyFloat_28
    rfl (by decide) (by decide) pyFloat_25
  exact ⟨h, by rw [h]; rfl⟩

/-- C6 as amended: the risk-trajectory computation itself maps zero elapsed
time to annual_change 0 and trend "stable" for every risk type (no division
error), but analyze_progression on two identical-timestamp records with
valid cognitive scores returns the caught-error result
{status: "error", message: "float division by zero"} instead of reporting
those trends; no exception escapes. -/
theorem C6_amended_zero_elapsed :
    (∀ (t : ℚ) (r1 r2 : PRecord) (e1 e2 : RiskEntry) (o1 c1 g1 l1 o2 c2 g2 l2 : ℚ),
      r1.risk_assessment = some e1 → r2.risk_assessment = some e2 →
      e1.overall_risk = some o1 → e1.cognitive_risk = some c1 →
      e1.genetic_risk = some g1 → e1.lifestyle_risk = some l1 →
      e2.overall_risk = some o2 → e2.cognitive_risk = some c2 →
      e2.genetic_risk = some g2 → e2.lifestyle_risk = some l2 →
      _analyze_risk_trajectory [(t, r1), (t, r2)] =
        .trends [("overall_risk", ⟨o1, o2, 0, "stable"⟩),
                 ("cognitive_risk", ⟨c1, c2, 0, "stable"⟩),
                 ("genetic_risk", ⟨g1, g2, 0, "stable"⟩),
                 ("lifestyle_risk", ⟨l1, l2, 0, "stable"⟩)]) ∧
    (∀ (t : ℚ) (r1 r2 : PRecord) (d1 d2 : PyDict) (s1 s2 tok1 tok2 : String)
        (q1 q2 : ℚ),
      r1.timestamp = some t → r2.timestamp = some t →
      r1.cognitive_tests = some d1 → d1.lookup "mmse_score" = some s1 →
      firstToken s1 = some tok1 → pyFloat tok1 = some q1 →
      r2.cognitive_tests = some d2 → d2.lookup "mmse_score" = some s2 →
      firstToken s2 = some tok2 → pyFloat tok2 = some q2 →
      analyze_progression [r1, r2] = error_result "float division by zero") :=
  ⟨fun t r1 r2 e1 e2 o1 c1 g1 l1 o2 c2 g2 l2 h1 h2 ho1 hc1 hg1 hl1 ho2 hc2 hg2 hl2 =>
    risk_trajectory_two_equal_times t r1 r2 e1 e2 o1 c1 g1 l1 o2 c2 g2 l2
      h1 h2 ho1 hc1 hg1 hl1 ho2 hc2 hg2 hl2,
   fun t r1 r2 d1 d2 s1 s2 tok1 tok2 q1 q2 ht1 ht2 hd1 hm1 hf1 hp1 hd2 hm2 hf2 hp2 =>
    analyze_progression_two_equal_times_error t r1 r2 d1 d2 s1 s2 tok1 tok2 q1 q2
      ht1 ht2 hd1 hm1 hf1 hp1 hd2 hm2 hf2 hp2⟩

theorem C6_amended_zero_elapsed_witness :
    _analyze_risk_trajectory [((0:ℚ), c6_r1), (0, c6_r2)] =
      .trends [("overall_risk", ⟨0.5, 0.6, 0, "stable"⟩),
               ("cognitive_risk", ⟨0.5, 0.6, 0, "stable"⟩),
               ("genetic_risk", ⟨0.5, 0.6, 0, "stable"⟩),
               ("lifestyle_risk", ⟨0.5, 0.6, 0, "stable"⟩)] ∧
    analyze_progression [c6_r1, c6_r2] = error_result "float division by zero" :=
  ⟨C6_amended_zero_elapsed.1 0 c6_r1 c6_r2 ⟨some 0.5, some 0.5, some 0.5, some 0.5⟩
      ⟨some 0.6, some 0.6, some 0.6, some 0.6⟩ 0.5 0.5 0.5 0.5 0.6 0.6 0.6 0.6
      rfl rfl rfl rfl rfl rfl rfl rfl rfl rfl,
   C6_amended_zero_elapsed.2 0 c6_r1 c6_r2
      [("mmse_score", "28")] [("mmse_score", "25")] "28" "25" "28" "25" 28 25
      rfl rfl rfl (by decide) (by decide) pyFloat_28
      rfl (by decide) (by decide) pyFloat_25⟩

/-! ### Claim C8: retrieve_similar (rag_processor lines 116-144)

The sentence-transformer embedding model and sklearn's cosine_similarity
are external collaborators; they are abstracted as the similarity function
`sim` applied to the query embedding and each stored vector.  Python's
`list.sort(key=..., reverse=True)` is a stable descending sort, modelled as
the stable insertionSort under the reversed comparison. -/

structure StoredDoc where
  text : String
  metadata : String
  vector : List ℚ

structure ScoredDoc where
  text : String
  metadata : String
  similarity : ℚ

/-- One entry of similar_docs (lines 126-136). -/
def score_doc (sim : List ℚ → List ℚ → ℚ) (query_embedding : List ℚ)
    (d : StoredDoc) : ScoredDoc :=
  ⟨d.text, d.metadata, sim query_embedding d.vector⟩

/-- similar_docs after the sort of line 139: one scored entry per stored
document in collection order, stably sorted by descending similarity. -/
def retrieve_similar_ranked (sim : List ℚ → List ℚ → ℚ) (query_embedding : List ℚ)
    (store : List StoredDoc) : List ScoredDoc :=
  List.insertionSort (fun a b : ScoredDoc => b.similarity ≤ a.similarity)
    (store.map (score_doc sim query_embedding))

/-- retrieve_similar: the first top_k of the ranked list (line 140). -/
def retrieve_similar (sim : List ℚ → List ℚ → ℚ) (query_embedding : List ℚ)
    (store : List StoredDoc) (top_k : ℕ) : List ScoredDoc :=
  (retrieve_similar_ranked sim query_embedding store).take top_k

/-- C8: retrieve_similar returns at most top_k results, ordered by
descending similarity; ties are broken by original insertion order (a pair
of equal-similarity documents keeps its store order in the ranked list, of
which the result is the prefix); and a query against an empty store returns
the empty list rather than an error. -/
theorem C8_retrieve_similar_contract (sim : List ℚ → List ℚ → ℚ)
    (query_embedding : List ℚ) (store : List StoredDoc) (top_k : ℕ) :
    (retrieve_similar sim query_embedding store top_k).length ≤ top_k ∧
    (retrieve_similar sim query_embedding store top_k).Pairwise
      (fun a b => b.similarity ≤ a.similarity) ∧
    retrieve_similar sim query_embedding store top_k =
      (retrieve_similar_ranked sim query_embedding store).take top_k ∧
    (∀ d1 d2 : StoredDoc, List.Sublist [d1, d2] store →
      sim query_embedding d1.vector = sim query_embedding d2.vector →
      List.Sublist [score_doc sim query_embedding d1, score_doc sim query_embedding d2]
        (retrieve_similar_ranked sim query_embedding store)) ∧
    retrieve_similar sim query_embedding [] top_k = [] := by
  haveI hTot : IsTotal ScoredDoc (fun a b => b.similarity ≤ a.similarity) :=
    ⟨fun a b => le_total b.similarity a.similarity⟩
  haveI hTrans : IsTrans ScoredDoc (fun a b => b.similarity ≤ a.similarity) :=
    ⟨fun _ _ _ hab hbc => le_trans hbc hab⟩
  refine ⟨?_, ?_, rfl, ?_, by simp [retrieve_similar, retrieve_similar_ranked]⟩
  · exact List.length_take_le top_k _
  · exact ((List.sorted_insertionSort _ _).sublist (List.take_sublist _ _))
  · intro d1 d2 hsub hsim
    exact List.pair_sublist_insertionSort (le_of_eq hsim.symm) (hsub.map _)

def c8_doc1 : StoredDoc := ⟨"first chunk", "m1", [1, 0]⟩
def c8_doc2 : StoredDoc := ⟨"second chunk", "m2", [0, 1]⟩

def c8_sim : List ℚ → List ℚ → ℚ := fun _ _ => 1

theorem C8_retrieve_similar_contract_witness :
    (retrieve_similar c8_sim [] [c8_doc1, c8_doc2] 1).length ≤ 1 ∧
    List.Sublist [score_doc c8_sim [] c8_doc1, score_doc c8_sim [] c8_doc2]
      (retrieve_similar_ranked c8_sim [] [c8_doc1, c8_doc2]) ∧
    retrieve_similar c8_sim [] [] 1 = [] :=
  ⟨(C8_retrieve_similar_contract c8_sim [] [c8_doc1, c8_doc2] 1).1,
   (C8_retrieve_similar_contract c8_sim [] [c8_doc1, c8_doc2] 1).2.2.2.1 c8_doc1 c8_doc2
     (List.Sublist.refl _) rfl,
   (C8_retrieve_similar_contract c8_sim [] [] 1).2.2.2.2⟩
